import Mathlib

/-!
Shallow embedding of `project.py`, a NASA API explorer with three operations:
`explore_asteroids`, `explore_apod` and `explore_mars_rover_photos`.  The
embedding models parsed JSON responses as an inductive `Json` type (numbers as
rationals), Python exceptions as an explicit error type threaded through
`Except`, and the observable side effects of one operation invocation (HTTP
fetches and file writes) as an ordered trace.  Network responses are inputs:
each operation takes the JSON body and status code that the single API fetch
would produce.
-/

set_option autoImplicit false

namespace Explorer

/-- Parsed JSON-like values, as produced by `response.json()`.  Numeric values
are modelled as rationals.  Objects are ordered key/value lists; `json.loads`
produces dictionaries with distinct keys in insertion order. -/
inductive Json where
  | null
  | bool (b : Bool)
  | num (q : ℚ)
  | str (s : String)
  | arr (xs : List Json)
  | obj (kvs : List (String × Json))

/-- The Python exceptions the source can raise in the modelled fragment. -/
inductive PyExc where
  | keyError
  | typeError
  | valueError
  | indexError
deriving DecidableEq

/-- Python subscript `value[key]` with a string key: a dictionary yields the
entry or raises `KeyError`; any non-dictionary value raises `TypeError`. -/
def Json.getItem : Json → String → Except PyExc Json
  | .obj kvs, k =>
    match kvs.lookup k with
    | some v => .ok v
    | none => .error .keyError
  | _, _ => .error .typeError

/-- The `try: x = resp[key] / except KeyError:` pattern used by all three
operations: `KeyError` is converted to `none` (the "Missing" outcome); any
other exception (notably `TypeError` from subscripting a non-dictionary)
propagates. -/
def extractKey (resp : Json) (key : String) : Except PyExc (Option Json) :=
  match resp.getItem key with
  | .ok v => .ok (some v)
  | .error .keyError => .ok none
  | .error e => .error e

/-- Python iteration `for x in v`: lists yield elements, dictionaries yield
their keys, strings yield one-character strings; other values raise
`TypeError`. -/
def pyIter : Json → Except PyExc (List Json)
  | .arr xs => .ok xs
  | .obj kvs => .ok (kvs.map (fun p => .str p.1))
  | .str s => .ok (s.data.map (fun c => .str (String.mk [c])))
  | _ => .error .typeError

/-- Rendering of a value inside an f-string.  The operations only ever format
URL strings this way; the rendering of non-string values is an approximation
(no claim exercises it). -/
def pyFStr : Json → String
  | .str s => s
  | .null => "None"
  | .bool true => "True"
  | .bool false => "False"
  | .num q => toString q
  | .arr _ => "<list>"
  | .obj _ => "<dict>"

/-- Does the 10-character window at the head of the list match the regex
`\d\d\d\d-\d\d-\d\d`?  `\d` is modelled as an ASCII digit (the Python pattern
also admits other Unicode digits; no claim involves them). -/
def dateRunAt : List Char → Bool
  | y1 :: y2 :: y3 :: y4 :: '-' :: m1 :: m2 :: '-' :: d1 :: d2 :: _ =>
    y1.isDigit && y2.isDigit && y3.isDigit && y4.isDigit &&
      m1.isDigit && m2.isDigit && d1.isDigit && d2.isDigit
  | _ => false

/-- Does any position of the list start a `\d\d\d\d-\d\d-\d\d` window? -/
def hasDateRun : List Char → Bool
  | [] => false
  | c :: rest => dateRunAt (c :: rest) || hasDateRun rest

/-- `re.search(DATE, s)` truthiness, with `DATE = \d\d\d\d-\d\d-\d\d`:
`re.search` scans for a match anywhere in the string (it is not anchored). -/
def reSearchDATE (s : String) : Bool :=
  hasDateRun s.data

/-- `s.split("-")` on a character list: split at every dash, keeping empty
groups, as Python does for a one-character separator. -/
def splitOnDash : List Char → List (List Char)
  | [] => [[]]
  | c :: rest =>
    if c = '-' then [] :: splitOnDash rest
    else
      match splitOnDash rest with
      | [] => [[c]]
      | g :: gs => (c :: g) :: gs

/-- Python `s.split("-")`. -/
def pySplitDash (s : String) : List String :=
  (splitOnDash s.data).map (fun cs => String.mk cs)

/-- Tuple unpacking `a, b, c = xs`: raises `ValueError` unless the sequence
has exactly three elements. -/
def unpack3 (xs : List String) : Except PyExc (String × String × String) :=
  match xs with
  | [a, b, c] => .ok (a, b, c)
  | _ => .error .valueError

/-- Decimal digits to a natural number. -/
def digitsToNat (cs : List Char) : Nat :=
  cs.foldl (fun n c => 10 * n + (c.toNat - '0'.toNat)) 0

/-- Python `int(s)` restricted to an optional sign followed by ASCII digits;
anything else raises `ValueError`.  (Python additionally strips surrounding
whitespace and permits digit-group underscores and Unicode digits; none of
the inputs in the claims use those forms.) -/
def pyInt (s : String) : Except PyExc Int :=
  let (sign, ds) :=
    match s.data with
    | '+' :: rest => ((1 : Int), rest)
    | '-' :: rest => ((-1 : Int), rest)
    | cs => ((1 : Int), cs)
  if ds ≠ [] ∧ ds.all Char.isDigit then .ok (sign * (digitsToNat ds : Int))
  else .error .valueError

/-- A `datetime.datetime` at midnight: the source only ever builds dates with
the time fields defaulted. -/
structure Datetime where
  year : Int
  month : Int
  day : Int
deriving DecidableEq

/-- Gregorian leap-year rule, as used by `datetime`. -/
def isLeap (y : Int) : Bool :=
  (y % 4 == 0 && y % 100 != 0) || (y % 400 == 0)

/-- Days in a month (0 for an out-of-range month, which the bound check
rejects anyway). -/
def daysInMonth (y m : Int) : Int :=
  if m = 1 ∨ m = 3 ∨ m = 5 ∨ m = 7 ∨ m = 8 ∨ m = 10 ∨ m = 12 then 31
  else if m = 2 then (if isLeap y then 29 else 28)
  else if m = 4 ∨ m = 6 ∨ m = 9 ∨ m = 11 then 30
  else 0

/-- `dt.datetime(year=int(ys), month=int(ms), day=int(ds))`: the `int`
conversions and the constructor each raise `ValueError` on bad input;
`datetime` accepts years 1..9999 and only real calendar days. -/
def mkDatetime (ys ms ds : String) : Except PyExc Datetime := do
  let y ← pyInt ys
  let m ← pyInt ms
  let d ← pyInt ds
  if 1 ≤ y ∧ y ≤ 9999 ∧ 1 ≤ m ∧ m ≤ 12 ∧ 1 ≤ d ∧ d ≤ daysInMonth y m then
    pure { year := y, month := m, day := d }
  else .error .valueError

/-- `datetime` comparison: lexicographic on (year, month, day). -/
def dtLt (a b : Datetime) : Bool :=
  decide (a.year < b.year ∨ (a.year = b.year ∧
    (a.month < b.month ∨ (a.month = b.month ∧ a.day < b.day))))

/-- Index of the last `.` in a character list, if any. -/
def lastDotIdx (cs : List Char) : Option Nat :=
  (List.range cs.length).foldl
    (fun acc i => if cs.getD i ' ' = '.' then some i else acc) none

/-- The characters after the last `/`, i.e. the final path component. -/
def lastPathComponent : List Char → List Char
  | [] => []
  | c :: rest =>
    if c = '/' ∨ rest.contains '/' then lastPathComponent rest else c :: rest

/-- `os.path.splitext(p)[-1]` on POSIX: the extension starts at the last dot
of the final path component, provided some earlier character of that
component is not a dot (so leading dots, as in `.bashrc`, yield no
extension). -/
def splitextExt (p : String) : String :=
  let cs := lastPathComponent p.data
  match lastDotIdx cs with
  | none => ""
  | some j => if (cs.take j).any (fun c => c ≠ '.') then String.mk (cs.drop j) else ""

/-- ASCII lower-casing of one character, as `str.lower` does on URL text. -/
def asciiLowerChar (c : Char) : Char :=
  if 'A' ≤ c ∧ c ≤ 'Z' then Char.ofNat (c.toNat + 32) else c

/-- Python `s.lower()` restricted to ASCII (URLs in the claims are ASCII). -/
def pyLower (s : String) : String :=
  String.mk (s.data.map asciiLowerChar)

/-- Python `s.endswith(t)`: literal, case-sensitive suffix test. -/
def pyEndsWith (s t : String) : Bool :=
  let n := s.data.length
  let m := t.data.length
  decide (m ≤ n) && s.data.drop (n - m) == t.data

/-- Round-half-to-even of the fraction `a / b`, for positive `b`: the floor
when the remainder is below one half, the ceiling above one half, and the
even neighbour on an exact tie. -/
def roundHalfEvenInt (a b : ℤ) : ℤ :=
  let f := Int.fdiv a b
  let r2 := 2 * (a - f * b)
  if r2 < b then f
  else if b < r2 then f + 1
  else if f % 2 = 0 then f else f + 1

/-- Python `round(q, 2)` on an exact rational: round `q * 100` half-to-even
and scale back.  (Python rounds the binary floating-point value half-to-even;
numbers are modelled as exact rationals here.) -/
def round2 (q : ℚ) : ℚ :=
  mkRat (roundHalfEvenInt (q.num * 100) (q.den : ℤ)) 100

/-- The numeric view Python takes of a JSON value: numbers are themselves,
and booleans are the integers 0 and 1 (`bool` is an `int` subclass); other
values are not numeric. -/
def jNum? : Json → Option ℚ
  | .num q => some q
  | .bool b => some (if b then 1 else 0)
  | _ => none

/-- `round(v, 2)` applied to a JSON value: numeric values round; any other
value raises `TypeError`. -/
def pyRound2 (v : Json) : Except PyExc ℚ :=
  match jNum? v with
  | some q => .ok (round2 q)
  | none => .error .typeError

/-- One CSV row of `near_earth_object_data.csv`.  The name cell holds the
JSON value verbatim (`csv.DictWriter` stringifies any value; the API sends
strings); the four diameter cells hold the rounded numbers. -/
structure NearEarthObjectRecord where
  date : String
  name : Json
  estimated_diameter_min_meters : ℚ
  estimated_diameter_max_meters : ℚ
  estimated_diameter_min_feet : ℚ
  estimated_diameter_max_feet : ℚ

/-- The body of the inner loop of `explore_asteroids`: read the name, the
`estimated_diameter.meters` pair and the `estimated_diameter.feet` pair from
one near-Earth object, rounding each diameter to two decimals, in the
evaluation order of the source. -/
def asteroidRow (date : String) (neo : Json) : Except PyExc NearEarthObjectRecord := do
  let name ← neo.getItem "name"
  let meters ← (← neo.getItem "estimated_diameter").getItem "meters"
  let min_m ← pyRound2 (← meters.getItem "estimated_diameter_min")
  let max_m ← pyRound2 (← meters.getItem "estimated_diameter_max")
  let feet ← (← neo.getItem "estimated_diameter").getItem "feet"
  let min_ft ← pyRound2 (← feet.getItem "estimated_diameter_min")
  let max_ft ← pyRound2 (← feet.getItem "estimated_diameter_max")
  pure { date := date, name := name,
         estimated_diameter_min_meters := min_m,
         estimated_diameter_max_meters := max_m,
         estimated_diameter_min_feet := min_ft,
         estimated_diameter_max_feet := max_ft }

/-- `for near_earth_object in log[date]`: rows produced for one date, plus
the exception that interrupted the loop, if any (rows written before the
exception are kept, as the file write has already happened). -/
def projectDateList (date : String) : List Json → List NearEarthObjectRecord × Option PyExc
  | [] => ([], none)
  | neo :: rest =>
    match asteroidRow date neo with
    | .error e => ([], some e)
    | .ok r =>
      let (rs, ex) := projectDateList date rest
      (r :: rs, ex)

/-- `for date in log:` over the key/value pairs of the near-earth-objects
dictionary.  (The source iterates keys and subscripts `log[date]`; for a
dictionary with distinct keys that is the same as iterating the pairs.) -/
def projectPairs : List (String × Json) → List NearEarthObjectRecord × Option PyExc
  | [] => ([], none)
  | (date, v) :: rest =>
    match pyIter v with
    | .error e => ([], some e)
    | .ok neos =>
      match projectDateList date neos with
      | (rs, some e) => (rs, some e)
      | (rs, none) =>
        let (rs2, ex) := projectPairs rest
        (rs ++ rs2, ex)

/-- The whole double loop of `explore_asteroids` over the extracted
`near_earth_objects` value.  A dictionary is iterated pairwise; iterating an
empty list or an empty string performs no iterations, so the loop completes
with no rows; for any other non-dictionary value the iteration or the
subscript raises before a first row is produced (the concrete exception
class can vary with exotic payloads; no claim depends on this branch). -/
def projectAsteroids : Json → List NearEarthObjectRecord × Option PyExc
  | .obj kvs => projectPairs kvs
  | .arr [] => ([], none)
  | .str "" => ([], none)
  | _ => ([], some .typeError)

/-- The value an operation returns: `False` with a printed message, or the
HTTP status code on success. -/
inductive Outcome where
  | failure (msg : String)
  | success (statusCode : Int)

/-- How one operation invocation ends: a normal return, an uncaught
exception propagating to the caller, or `sys.exit()`. -/
inductive PyResult (α : Type) where
  | ret (a : α)
  | exc (e : PyExc)
  | exit

/-- Observable side effects of one operation invocation, in program order.
`writeText name lines` is a text file opened with mode `w` (created or
truncated) holding one line per list entry; `writeCsv` likewise holds the
header plus the given rows; `writeBytes name url` is a binary file whose
content is the bytes fetched from `url`. -/
inductive Effect where
  | fetchApi
  | fetchImage (url : String)
  | writeText (name : String) (lines : List String)
  | writeCsv (name : String) (rows : List NearEarthObjectRecord)
  | writeBytes (name : String) (srcUrl : String)

/-- What the single JSON API fetch of an operation would return: the parsed
body and the HTTP status code. -/
structure FetchResult where
  json : Json
  statusCode : Int

/-- The validation phase of `explore_asteroids`, before any fetch: the two
regex checks, the two `split("-")` unpackings (outside the `try`, so a wrong
dash count raises), the two `datetime` constructions (inside the `try`, so
`ValueError` becomes a failure return), and the range check. -/
def asteroidsPrelude (start_date end_date : String) :
    Except (PyResult Outcome) (Datetime × Datetime) :=
  if !reSearchDATE start_date then
    .error (.ret (.failure "Invalid date, use YYYY-MM-DD."))
  else if !reSearchDATE end_date then
    .error (.ret (.failure "Invalid date, use YYYY-MM-DD."))
  else
    match unpack3 (pySplitDash start_date) with
    | .error e => .error (.exc e)
    | .ok (sy, sm, sd) =>
      match unpack3 (pySplitDash end_date) with
      | .error e => .error (.exc e)
      | .ok (ey, em, ed) =>
        match mkDatetime sy sm sd with
        | .error _ =>
          .error (.ret (.failure "Invalid dates, use correct values for year, month, day."))
        | .ok s =>
          match mkDatetime ey em ed with
          | .error _ =>
            .error (.ret (.failure "Invalid dates, use correct values for year, month, day."))
          | .ok e =>
            if dtLt e s then
              .error (.ret (.failure "Invalid dates, end date must be after start date."))
            else .ok (s, e)

/-- `explore_asteroids(start_date, end_date)`: validate, fetch the feed,
extract `near_earth_objects` (`KeyError` becomes a failure return), then open
the CSV file and write one row per object per date. -/
def explore_asteroids (start_date end_date : String) (w : FetchResult) :
    PyResult Outcome × List Effect :=
  match asteroidsPrelude start_date end_date with
  | .error r => (r, [])
  | .ok _ =>
    match extractKey w.json "near_earth_objects" with
    | .error e => (.exc e, [.fetchApi])
    | .ok none =>
      (.ret (.failure ("Invalid date/API key. Check if API key is valid and end date is " ++
        "within 7 days of the start date")), [.fetchApi])
    | .ok (some log) =>
      let (rows, ex) := projectAsteroids log
      match ex with
      | some e => (.exc e, [.fetchApi, .writeCsv "near_earth_object_data.csv" rows])
      | none =>
        (.ret (.success w.statusCode),
          [.fetchApi, .writeCsv "near_earth_object_data.csv" rows])

/-- The validation phase of `explore_apod`: the regex check on the date and
the filename non-emptiness check.  There is no calendar-validity check in
this operation. -/
def apodPrelude (date file_name : String) : Except (PyResult Outcome) Unit :=
  if !reSearchDATE date then
    .error (.ret (.failure "Invalid date format, use YYYY-MM-DD."))
  else if file_name == "" || file_name == " " then
    .error (.ret (.failure "Invalid file name."))
  else .ok ()

/-- `explore_apod(date, file_name)`: validate, fetch the metadata, extract
`hdurl`, then fetch the image bytes and save them as the given name plus the
extension taken from the URL. -/
def explore_apod (date file_name : String) (w : FetchResult) :
    PyResult Outcome × List Effect :=
  match apodPrelude date file_name with
  | .error r => (r, [])
  | .ok _ =>
    match extractKey w.json "hdurl" with
    | .error e => (.exc e, [.fetchApi])
    | .ok none =>
      (.ret (.failure "Invalid date/API key. Check if API key is valid and date is not after today."),
        [.fetchApi])
    | .ok (some v) =>
      match v with
      | .str image_url =>
        let fname := file_name ++ splitextExt image_url
        (.ret (.success w.statusCode),
          [.fetchApi, .fetchImage image_url, .writeBytes fname image_url])
      | _ => (.exc .typeError, [.fetchApi])

/-- The validation phase of `explore_mars_rover_photos`: the regex check on
the date, the filename check (`not file_name or file_name == " " or not
file_name.endswith("txt")` — note the required suffix is the bare `txt`),
the `split`/`datetime` construction, and the not-in-the-future check against
`dt.datetime.today()`, passed in as `today`. -/
def roverPrelude (file_name date : String) (today : Datetime) :
    Except (PyResult Outcome) Unit :=
  if !reSearchDATE date then
    .error (.ret (.failure "Invalid date format, use YYYY-MM-DD."))
  else if file_name == "" || file_name == " " || !(pyEndsWith file_name "txt") then
    .error (.ret (.failure "Invalid file name, must contain characters and end with .txt ."))
  else
    match unpack3 (pySplitDash date) with
    | .error e => .error (.exc e)
    | .ok (ys, ms, ds) =>
      match mkDatetime ys ms ds with
      | .error _ =>
        .error (.ret (.failure "Invalid date, use correct values for year, month, day"))
      | .ok d =>
        if dtLt today d then .error (.ret (.failure "Date must not be after today."))
        else .ok ()

/-- The body of `for photo in photos`: collect the written lines and the
`images` list in order, with the exception that interrupted the loop, if
any.  After the loop the Python variable `image_url` holds the `img_src` of
the LAST iteration. -/
def roverLoop : List Json → List String × List Json × Option PyExc
  | [] => ([], [], none)
  | photo :: rest =>
    match photo.getItem "img_src" with
    | .error e => ([], [], some e)
    | .ok v =>
      let (lines, images, ex) := roverLoop rest
      (pyFStr v :: lines, v :: images, ex)

/-- `explore_mars_rover_photos(file_name, date)`: validate, fetch, extract
`photos`, open the text file and write every `img_src` line, then — via
`try: images[0] / except IndexError: sys.exit()` — hard-stop when no image
was found, and otherwise save the bytes of `image_url` (the last loop value)
under `mars` plus the lower-cased extension of `images[0]`. -/
def explore_mars_rover_photos (file_name date : String) (w : FetchResult)
    (today : Datetime) : PyResult Outcome × List Effect :=
  match roverPrelude file_name date today with
  | .error r => (r, [])
  | .ok _ =>
    match extractKey w.json "photos" with
    | .error e => (.exc e, [.fetchApi])
    | .ok none => (.ret (.failure "Invalid date/API key."), [.fetchApi])
    | .ok (some photosJson) =>
      match pyIter photosJson with
      | .error e =>
        -- the loop header runs inside `with open(...)`: the file is already
        -- created (empty) when iterating a non-sequence raises
        (.exc e, [.fetchApi, .writeText file_name []])
      | .ok plist =>
        match roverLoop plist with
        | (lines, _, some e) => (.exc e, [.fetchApi, .writeText file_name lines])
        | (lines, images, none) =>
          match images.head? with
          | none => (.exit, [.fetchApi, .writeText file_name lines])
          | some img0 =>
            match img0 with
            | .str s0 =>
              let fname := "mars" ++ pyLower (splitextExt s0)
              match images.getLast? with
              | some (.str lastUrl) =>
                (.ret (.success w.statusCode),
                  [.fetchApi, .writeText file_name lines,
                   .fetchImage lastUrl, .writeBytes fname lastUrl])
              | _ =>
                -- `requests.get` on a non-string URL raises
                (.exc .typeError, [.fetchApi, .writeText file_name lines])
            | _ =>
              -- `os.path.splitext` on a non-string raises `TypeError`
              (.exc .typeError, [.fetchApi, .writeText file_name lines])

/-! ### Spec-side restatement of the asteroid projection

The definitions below follow the words of the specification for the asteroid
projection — "for every date key in the near-earth-objects mapping, for every
object in that date's list, emit one `NearEarthObjectRecord`", with diameters
read from `estimated_diameter.meters`/`.feet` and rounded to two decimals —
to be compared with the loop in `explore_asteroids`. -/

/-- Spec-side key lookup in a JSON mapping: `none` when the value is not a
mapping or lacks the key. -/
def jGet? : Json → String → Option Json
  | .obj kvs, k => kvs.lookup k
  | _, _ => none

/-- The six source fields of one near-Earth object, before rounding. -/
structure NeoShape where
  name : Json
  min_m : ℚ
  max_m : ℚ
  min_ft : ℚ
  max_ft : ℚ

def defaultNeoShape : NeoShape := ⟨.null, 0, 0, 0, 0⟩

/-- Read the name and the four diameters of one object, if it has the
expected shape. -/
def neoShape? (j : Json) : Option NeoShape := do
  let name ← jGet? j "name"
  let ed ← jGet? j "estimated_diameter"
  let me ← jGet? ed "meters"
  let fe ← jGet? ed "feet"
  let a ← jNum? (← jGet? me "estimated_diameter_min")
  let b ← jNum? (← jGet? me "estimated_diameter_max")
  let c ← jNum? (← jGet? fe "estimated_diameter_min")
  let d ← jNum? (← jGet? fe "estimated_diameter_max")
  pure ⟨name, a, b, c, d⟩

/-- The record the spec prescribes for one object under one date key: the
date, the name, and the four diameters each rounded to two decimals. -/
def specNeoRecord (date : String) (s : NeoShape) : NearEarthObjectRecord :=
  { date := date, name := s.name,
    estimated_diameter_min_meters := round2 s.min_m,
    estimated_diameter_max_meters := round2 s.max_m,
    estimated_diameter_min_feet := round2 s.min_ft,
    estimated_diameter_max_feet := round2 s.max_ft }

/-- The elements of a JSON array (empty for other values). -/
def jsonElems : Json → List Json
  | .arr xs => xs
  | _ => []

/-- The spec-side projection: one record per object per date key, in date-key
order then list order. -/
def specProject : List (String × Json) → List NearEarthObjectRecord
  | [] => []
  | p :: rest =>
    (jsonElems p.2).map (fun j => specNeoRecord p.1 ((neoShape? j).getD defaultNeoShape))
      ++ specProject rest

/-- The one-object fixture of the spec scenario: name `Test`, meter diameters
1.234 and 5.678, feet diameters 3.3891 and 18.6294. -/
def testNeo : Json :=
  .obj [("name", .str "Test"),
        ("estimated_diameter", .obj [
          ("meters", .obj [("estimated_diameter_min", .num (mkRat 1234 1000)),
                           ("estimated_diameter_max", .num (mkRat 5678 1000))]),
          ("feet", .obj [("estimated_diameter_min", .num (mkRat 33891 10000)),
                         ("estimated_diameter_max", .num (mkRat 186294 10000))])])]

/-! ### Helper lemmas -/

theorem getItem_of_jGet {j : Json} {k : String} {v : Json} (h : jGet? j k = some v) :
    Json.getItem j k = .ok v := by
  cases j <;> simp_all [jGet?, Json.getItem]

theorem pyRound2_of_jNum {v : Json} {q : ℚ} (h : jNum? v = some q) :
    pyRound2 v = .ok (round2 q) := by
  simp [pyRound2, h]

theorem asteroidRow_of_shape (date : String) {j : Json} {s : NeoShape}
    (h : neoShape? j = some s) :
    asteroidRow date j = .ok (specNeoRecord date s) := by
  simp only [neoShape?, Option.pure_def, Option.bind_eq_bind, Option.bind_eq_some] at h
  obtain ⟨name, hname, ed, hed, me, hme, fe, hfe, va, hva, a, ha,
    vb, hvb, b, hb, vc, hvc, c, hc, vd, hvd, d, hd, hs⟩ := h
  rw [Option.some_inj] at hs
  subst hs
  simp [asteroidRow, specNeoRecord, getItem_of_jGet hname, getItem_of_jGet hed,
    getItem_of_jGet hme, getItem_of_jGet hfe, getItem_of_jGet hva,
    getItem_of_jGet hvb, getItem_of_jGet hvc, getItem_of_jGet hvd,
    pyRound2_of_jNum ha, pyRound2_of_jNum hb, pyRound2_of_jNum hc,
    pyRound2_of_jNum hd, bind, Except.bind, Functor.map, Except.map, pure, Except.pure]

theorem projectDateList_of_shapes (date : String) (xs : List Json)
    (h : ∀ j ∈ xs, (neoShape? j).isSome = true) :
    projectDateList date xs
      = (xs.map (fun j => specNeoRecord date ((neoShape? j).getD defaultNeoShape)), none) := by
  induction xs with
  | nil => rfl
  | cons j rest ih =>
    obtain ⟨s, hs⟩ := Option.isSome_iff_exists.mp (h j (by simp))
    have hrest := ih (fun x hx => h x (by simp [hx]))
    simp [projectDateList, asteroidRow_of_shape date hs, hrest, hs]

theorem projectPairs_of_shapes (kvs : List (String × Json))
    (h : ∀ p ∈ kvs, ∃ xs : List Json, p.2 = Json.arr xs ∧
      ∀ j ∈ xs, (neoShape? j).isSome = true) :
    projectPairs kvs = (specProject kvs, none) := by
  induction kvs with
  | nil => rfl
  | cons p rest ih =>
    obtain ⟨xs, hxs, hwf⟩ := h p (by simp)
    have hrest := ih (fun q hq => h q (by simp [hq]))
    obtain ⟨date, v⟩ := p
    simp only at hxs
    subst hxs
    simp [projectPairs, pyIter, projectDateList_of_shapes date xs hwf, hrest,
      specProject, jsonElems]

/-! ### Claims -/

/-- C1: evaluation at the failing input.  With two distinct photo URLs in the
response, the rover operation saves as `mars.jpg` (extension taken from
element 0) the bytes fetched from the LAST URL, not from element 0: after the
write loop the Python variable `image_url` holds the final `img_src`, and
that is what the second fetch downloads, contradicting the claim (and the
docstring "saves the first image found"). -/
theorem c1_rover_saves_last_url_not_first :
    explore_mars_rover_photos "images.txt" "2022-12-21"
        ⟨.obj [("photos", .arr [.obj [("img_src", .str "https://m/a/first.jpg")],
                                .obj [("img_src", .str "https://m/b/second.png")]])], 200⟩
        ⟨2026, 10, 12⟩
      = (.ret (.success 200),
         [.fetchApi,
          .writeText "images.txt" ["https://m/a/first.jpg", "https://m/b/second.png"],
          .fetchImage "https://m/b/second.png",
          .writeBytes "mars.jpg" "https://m/b/second.png"]) := rfl

/-- C2 counterexample: the date check uses `re.search`, which matches
anywhere in the string, so `x2022-12-21y` — which merely contains a 4-2-2
digit run as a substring — is NOT rejected at validation: the picture-of-day
operation proceeds to the fetch and succeeds, refuting the claim that every
such string fails with the bad-format outcome before any fetch. -/
theorem c2_substring_date_passes_validation :
    explore_apod "x2022-12-21y" "apod"
        ⟨.obj [("hdurl", .str "https://x/y/img.jpg")], 200⟩
      = (.ret (.success 200),
         [.fetchApi, .fetchImage "https://x/y/img.jpg",
          .writeBytes "apod.jpg" "https://x/y/img.jpg"]) := rfl

/-- C2 amended: each operation returns the bad-format failure exactly when a
date argument contains NO 4-2-2 digit-dash run anywhere (the regex is
applied with `re.search`, not a full match): when a date argument has no run
the operation fails with the bad-format message and an empty effect trace
(for asteroids, when either argument has no run), and when every date
argument has a run the operation never returns the bad-format failure.  A
string such as `x2022-12-21y`, containing a run as a proper substring,
therefore passes the format check of all three operations: asteroids and
rover then reject it only at integer/calendar parsing, with the
bad-calendar message, while the picture-of-day operation proceeds to the
fetch. -/
theorem c2_bad_format_rejected_exactly_when_no_date_run :
    (∀ (s t f : String) (w : FetchResult) (today : Datetime), reSearchDATE s = false →
      explore_asteroids s t w = (.ret (.failure "Invalid date, use YYYY-MM-DD."), [])
      ∧ explore_apod s f w = (.ret (.failure "Invalid date format, use YYYY-MM-DD."), [])
      ∧ explore_mars_rover_photos f s w today
          = (.ret (.failure "Invalid date format, use YYYY-MM-DD."), []))
    ∧ (∀ (s t : String) (w : FetchResult), reSearchDATE s = true → reSearchDATE t = false →
        explore_asteroids s t w = (.ret (.failure "Invalid date, use YYYY-MM-DD."), []))
    ∧ (∀ (s t : String) (w : FetchResult), reSearchDATE s = true → reSearchDATE t = true →
        (explore_asteroids s t w).1 ≠ .ret (.failure "Invalid date, use YYYY-MM-DD."))
    ∧ (∀ (s f : String) (w : FetchResult), reSearchDATE s = true →
        (explore_apod s f w).1 ≠ .ret (.failure "Invalid date format, use YYYY-MM-DD."))
    ∧ (∀ (f s : String) (w : FetchResult) (today : Datetime), reSearchDATE s = true →
        (explore_mars_rover_photos f s w today).1
          ≠ .ret (.failure "Invalid date format, use YYYY-MM-DD."))
    ∧ reSearchDATE "x2022-12-21y" = true
    ∧ (∀ w : FetchResult, explore_asteroids "x2022-12-21y" "x2022-12-21y" w
        = (.ret (.failure "Invalid dates, use correct values for year, month, day."), []))
    ∧ (∀ (w : FetchResult) (today : Datetime),
        explore_mars_rover_photos "images.txt" "x2022-12-21y" w today
          = (.ret (.failure "Invalid date, use correct values for year, month, day"), []))
    ∧ (∀ w : FetchResult, (explore_apod "x2022-12-21y" "apod" w).2.head? = some .fetchApi) := by
  refine ⟨?_, ?_, ?_, ?_, ?_, rfl, fun w => rfl, fun w today => rfl, ?_⟩
  · intro s t f w today h
    refine ⟨?_, ?_, ?_⟩ <;>
      simp [explore_asteroids, asteroidsPrelude, explore_apod, apodPrelude,
        explore_mars_rover_photos, roverPrelude, h]
  · intro s t w h1 h2
    simp [explore_asteroids, asteroidsPrelude, h1, h2]
  · intro s t w h1 h2
    simp only [explore_asteroids, asteroidsPrelude, h1, h2, Bool.not_true,
      Bool.false_eq_true, if_false]
    cases hu : unpack3 (pySplitDash s) with
    | error e => simp [hu]
    | ok p =>
      obtain ⟨ys, ms, ds⟩ := p
      cases hv : unpack3 (pySplitDash t) with
      | error e => simp [hu, hv]
      | ok q =>
        obtain ⟨yt, mt, dts⟩ := q
        cases hm : mkDatetime ys ms ds with
        | error e => simp [hu, hv, hm]
        | ok sd =>
          cases hn : mkDatetime yt mt dts with
          | error e => simp [hu, hv, hm, hn]
          | ok ed =>
            cases hlt : dtLt ed sd with
            | true => simp [hu, hv, hm, hn, hlt]
            | false =>
              cases hx : extractKey w.json "near_earth_objects" with
              | error e => simp [hu, hv, hm, hn, hlt, hx]
              | ok o =>
                cases o with
                | none => simp [hu, hv, hm, hn, hlt, hx]
                | some log =>
                  rcases hp : projectAsteroids log with ⟨rows, ex⟩
                  cases ex <;> simp [hu, hv, hm, hn, hlt, hx, hp]
  · intro s f w h
    simp only [explore_apod, apodPrelude, h, Bool.not_true, Bool.false_eq_true, if_false]
    cases hf : (f == "" || f == " ") with
    | true => simp [hf]
    | false =>
      cases hx : extractKey w.json "hdurl" with
      | error e => simp [hf, hx]
      | ok o =>
        cases o with
        | none => simp [hf, hx]
        | some v => cases v <;> simp [hf, hx]
  · intro f s w today h
    simp only [explore_mars_rover_photos, roverPrelude, h, Bool.not_true,
      Bool.false_eq_true, if_false]
    cases hf : (f == "" || f == " " || !pyEndsWith f "txt") with
    | true => simp [hf]
    | false =>
      cases hu : unpack3 (pySplitDash s) with
      | error e => simp [hf, hu]
      | ok p =>
        obtain ⟨ys, ms, ds⟩ := p
        cases hm : mkDatetime ys ms ds with
        | error e => simp [hf, hu, hm]
        | ok d0 =>
          cases hltd : dtLt today d0 with
          | true => simp [hf, hu, hm, hltd]
          | false =>
            cases hx : extractKey w.json "photos" with
            | error e => simp [hf, hu, hm, hltd, hx]
            | ok o =>
              cases o with
              | none => simp [hf, hu, hm, hltd, hx]
              | some pj =>
                cases hit : pyIter pj with
                | error e => simp [hf, hu, hm, hltd, hx, hit]
                | ok plist =>
                  rcases hrl : roverLoop plist with ⟨lines, images, ex⟩
                  cases ex with
                  | some e => simp [hf, hu, hm, hltd, hx, hit, hrl]
                  | none =>
                    cases himg : images.head? with
                    | none => simp [hf, hu, hm, hltd, hx, hit, hrl, himg]
                    | some img0 =>
                      cases img0 <;>
                        try simp [hf, hu, hm, hltd, hx, hit, hrl, himg]
                      case str s0 =>
                        cases hgl : images.getLast? with
                        | none => simp [hf, hu, hm, hltd, hx, hit, hrl, himg, hgl]
                        | some lastv =>
                          cases lastv <;>
                            simp [hf, hu, hm, hltd, hx, hit, hrl, himg, hgl]
  · intro w
    have hpre : apodPrelude "x2022-12-21y" "apod" = .ok () := rfl
    simp only [explore_apod, hpre]
    cases hx : extractKey w.json "hdurl" with
    | error e => simp [hx]
    | ok o =>
      cases o with
      | none => simp [hx]
      | some v => cases v <;> simp [hx]

/-- C2 witness: the non-matching date string from the repository tests is
rejected by the asteroid operation with the bad-format message and no
effects, and a fully matching date is not rejected with that message. -/
theorem c2_witness :
    explore_asteroids "December 20, 2022" "2022-12-21" ⟨.null, 200⟩
      = (.ret (.failure "Invalid date, use YYYY-MM-DD."), [])
    ∧ (explore_asteroids "2022-12-21" "2022-12-21" ⟨.null, 200⟩).1
        ≠ .ret (.failure "Invalid date, use YYYY-MM-DD.") :=
  ⟨(c2_bad_format_rejected_exactly_when_no_date_run.1 "December 20, 2022" "2022-12-21"
      "images.txt" ⟨.null, 200⟩ ⟨2026, 10, 12⟩ (by rfl)).1,
    c2_bad_format_rejected_exactly_when_no_date_run.2.2.1 "2022-12-21" "2022-12-21"
      ⟨.null, 200⟩ (by rfl) (by rfl)⟩

/-- C3: evaluation at the failing input.  The rover filename check is
`file_name.endswith("txt")` — without the dot — so `imagestxt` is ACCEPTED
and the operation runs to completion, contradicting the claim (and the
operation message text, which demands a name ending with `.txt`). -/
theorem c3_rover_accepts_name_ending_txt_without_dot :
    explore_mars_rover_photos "imagestxt" "2022-12-21"
        ⟨.obj [("photos", .arr [.obj [("img_src", .str "https://m/p.jpg")]])], 200⟩
        ⟨2026, 10, 12⟩
      = (.ret (.success 200),
         [.fetchApi, .writeText "imagestxt" ["https://m/p.jpg"],
          .fetchImage "https://m/p.jpg", .writeBytes "mars.jpg" "https://m/p.jpg"]) := rfl

/-- C4 counterexample: for a non-mapping response value (here a JSON list),
the subscript raises `TypeError`, which the `except KeyError` handler does
not catch: the rover operation propagates the exception to the caller
instead of returning the missing-key failure outcome, refuting the claim
that extraction never raises for non-mapping values. -/
theorem c4_non_mapping_response_raises :
    explore_mars_rover_photos "images.txt" "2022-12-20" ⟨.arr [], 200⟩ ⟨2026, 10, 12⟩
      = (.exc .typeError, [.fetchApi]) := rfl

/-- C4 amended: for every MAPPING response, extraction never raises: it
yields the entry when the expected top-level key is present and the missing
signal otherwise (so for the empty mapping and for an error-shaped mapping),
and on a missing key each operation returns the failure outcome carrying its
invalid-date/API-key message after the single fetch; non-mapping responses
(scalars, lists) instead raise an uncaught `TypeError`. -/
theorem c4_missing_key_gives_missing_and_failure :
    (∀ (kvs : List (String × Json)) (k : String),
      extractKey (Json.obj kvs) k = .ok (kvs.lookup k))
    ∧ (∀ kvs : List (String × Json), kvs.lookup "near_earth_objects" = none →
        explore_asteroids "2022-12-20" "2022-12-21" ⟨.obj kvs, 200⟩
          = (.ret (.failure ("Invalid date/API key. Check if API key is valid and end date is " ++
              "within 7 days of the start date")), [.fetchApi]))
    ∧ (∀ kvs : List (String × Json), kvs.lookup "hdurl" = none →
        explore_apod "2022-12-20" "apod" ⟨.obj kvs, 200⟩
          = (.ret (.failure "Invalid date/API key. Check if API key is valid and date is not after today."),
             [.fetchApi]))
    ∧ (∀ kvs : List (String × Json), kvs.lookup "photos" = none →
        explore_mars_rover_photos "images.txt" "2022-12-20" ⟨.obj kvs, 200⟩ ⟨2026, 10, 12⟩
          = (.ret (.failure "Invalid date/API key."), [.fetchApi])) := by
  refine ⟨?_, ?_, ?_, ?_⟩
  · intro kvs k
    cases h : kvs.lookup k <;> simp [extractKey, Json.getItem, h]
  · intro kvs h
    have hpre : asteroidsPrelude "2022-12-20" "2022-12-21"
        = .ok (⟨2022, 12, 20⟩, ⟨2022, 12, 21⟩) := rfl
    simp [explore_asteroids, hpre, extractKey, Json.getItem, h]
  · intro kvs h
    have hpre : apodPrelude "2022-12-20" "apod" = .ok () := rfl
    simp [explore_apod, hpre, extractKey, Json.getItem, h]
  · intro kvs h
    have hpre : roverPrelude "images.txt" "2022-12-20" ⟨2026, 10, 12⟩ = .ok () := rfl
    simp [explore_mars_rover_photos, hpre, extractKey, Json.getItem, h]

/-- C4 witness: an error-shaped mapping without the expected key yields the
missing-key failure outcome in the asteroid operation. -/
theorem c4_witness :
    explore_asteroids "2022-12-20" "2022-12-21" ⟨.obj [("error", .str "bad")], 200⟩
      = (.ret (.failure ("Invalid date/API key. Check if API key is valid and end date is " ++
          "within 7 days of the start date")), [.fetchApi]) :=
  c4_missing_key_gives_missing_and_failure.2.1 [("error", .str "bad")] (by rfl)

/-- C5 counterexample: the picture-of-day operation has NO calendar-validity
check — the impossible date `2023-02-30` passes its validation (it only
applies the format regex) and the operation proceeds to the fetch and
succeeds, refuting the claim that all three date-accepting operations reject
such dates before any fetch. -/
theorem c5_apod_accepts_impossible_date :
    explore_apod "2023-02-30" "apod"
        ⟨.obj [("hdurl", .str "https://x/y/img.png")], 200⟩
      = (.ret (.success 200),
         [.fetchApi, .fetchImage "https://x/y/img.png",
          .writeBytes "apod.png" "https://x/y/img.png"]) := rfl

/-- C5 amended: for format-matching date strings whose components do not
form a real calendar day, the asteroid and rover operations reject at
validation with the bad-calendar-value message and no effects, but the
picture-of-day operation performs no calendar check and proceeds to the
fetch. -/
theorem c5_calendar_rejection_asteroids_rover_only (s f : String) (w : FetchResult)
    (today : Datetime) (ys ms ds : String)
    (h1 : reSearchDATE s = true)
    (h2 : unpack3 (pySplitDash s) = .ok (ys, ms, ds))
    (h3 : mkDatetime ys ms ds = .error .valueError)
    (hf : (f == "" || f == " " || !pyEndsWith f "txt") = false) :
    explore_asteroids s s w
      = (.ret (.failure "Invalid dates, use correct values for year, month, day."), [])
    ∧ explore_mars_rover_photos f s w today
      = (.ret (.failure "Invalid date, use correct values for year, month, day"), [])
    ∧ (explore_apod s "apod" w).2.head? = some .fetchApi := by
  refine ⟨?_, ?_, ?_⟩
  · simp [explore_asteroids, asteroidsPrelude, h1, h2, h3]
  · simp [explore_mars_rover_photos, roverPrelude, h1, h2, h3, hf]
  · have hpre : apodPrelude s "apod" = .ok () := by simp [apodPrelude, h1]
    simp only [explore_apod, hpre]
    cases hx : extractKey w.json "hdurl" with
    | error e => simp [hx]
    | ok o =>
      cases o with
      | none => simp [hx]
      | some v => cases v <;> simp [hx]

/-- C5 witness: `2023-02-30` is format-matching but impossible, and the
asteroid operation rejects it at validation with no effects. -/
theorem c5_witness :
    explore_asteroids "2023-02-30" "2023-02-30" ⟨.null, 200⟩
      = (.ret (.failure "Invalid dates, use correct values for year, month, day."), []) :=
  (c5_calendar_rejection_asteroids_rover_only "2023-02-30" "images.txt" ⟨.null, 200⟩
    ⟨2026, 10, 12⟩ "2023" "02" "30" (by rfl) (by rfl) (by rfl) (by rfl)).1

/-- C6: for valid inputs and a response whose extracted `photos` value is a
sequence, the rover operation ends in the process-exit branch (rather than
any normal return) exactly when that sequence is empty. -/
theorem c6_exit_iff_photos_empty (f d : String) (w : FetchResult) (today : Datetime)
    (pj : Json) (plist : List Json)
    (h1 : roverPrelude f d today = .ok ())
    (h2 : extractKey w.json "photos" = .ok (some pj))
    (h3 : pyIter pj = .ok plist) :
    ((explore_mars_rover_photos f d w today).1 = PyResult.exit) ↔ plist = [] := by
  simp only [explore_mars_rover_photos, h1, h2, h3]
  cases plist with
  | nil => simp [roverLoop]
  | cons p rest =>
    simp only [roverLoop]
    cases hg : p.getItem "img_src" with
    | error e => simp [hg]
    | ok v =>
      simp only [hg]
      rcases hrl : roverLoop rest with ⟨lines, images, ex⟩
      cases ex with
      | some e => simp
      | none =>
        cases hgl : (v :: images).getLast? with
        | none => simp at hgl
        | some lastv => cases v <;> cases lastv <;> simp [hgl]

/-- C6 witness: with an empty photos list the rover operation ends in the
process-exit branch. -/
theorem c6_witness :
    (explore_mars_rover_photos "images.txt" "2022-12-21"
        ⟨.obj [("photos", .arr [])], 200⟩ ⟨2026, 10, 12⟩).1 = PyResult.exit :=
  (c6_exit_iff_photos_empty "images.txt" "2022-12-21" ⟨.obj [("photos", .arr [])], 200⟩
    ⟨2026, 10, 12⟩ (.arr []) [] (by rfl) (by rfl) (by rfl)).mpr rfl

/-- C7: when validation of the asteroid operation fails — the end date is
strictly before the start date, or a date argument has no 4-2-2 digit run —
the operation returns a failure outcome with an empty effect trace: no fetch
happens and the CSV file is never opened or written. -/
theorem c7_validation_failure_writes_nothing (s t : String) (w : FetchResult)
    (ys ms ds yt mt dts : String) (sd ed : Datetime)
    (h1 : reSearchDATE s = true) (h2 : reSearchDATE t = true)
    (h3 : unpack3 (pySplitDash s) = .ok (ys, ms, ds))
    (h4 : unpack3 (pySplitDash t) = .ok (yt, mt, dts))
    (h5 : mkDatetime ys ms ds = .ok sd)
    (h6 : mkDatetime yt mt dts = .ok ed)
    (hlt : dtLt ed sd = true) :
    explore_asteroids s t w
      = (.ret (.failure "Invalid dates, end date must be after start date."), [])
    ∧ ∀ (u v : String) (w2 : FetchResult), reSearchDATE u = false →
        explore_asteroids u v w2 = (.ret (.failure "Invalid date, use YYYY-MM-DD."), []) := by
  constructor
  · simp [explore_asteroids, asteroidsPrelude, h1, h2, h3, h4, h5, h6, hlt]
  · intro u v w2 hu
    simp [explore_asteroids, asteroidsPrelude, hu]

/-- C7 witness: the literal scenario start 2022-12-22, end 2022-12-21 gives
a failure outcome with no file written and no fetch. -/
theorem c7_witness :
    explore_asteroids "2022-12-22" "2022-12-21" ⟨.null, 200⟩
      = (.ret (.failure "Invalid dates, end date must be after start date."), []) :=
  (c7_validation_failure_writes_nothing "2022-12-22" "2022-12-21" ⟨.null, 200⟩
    "2022" "12" "22" "2022" "12" "21" ⟨2022, 12, 22⟩ ⟨2022, 12, 21⟩
    (by rfl) (by rfl) (by rfl) (by rfl) (by rfl) (by rfl) (by rfl)).1

/-- C8: for date arguments that parse to valid calendar dates, the asteroid
range check rejects with the end-before-start failure and no effects exactly
when the end date is strictly before the start date; otherwise — including
when the two dates are equal — the operation proceeds to the fetch. -/
theorem c8_range_check_rejects_iff_end_before_start (s t : String) (w : FetchResult)
    (ys ms ds yt mt dts : String) (sd ed : Datetime)
    (h1 : reSearchDATE s = true) (h2 : reSearchDATE t = true)
    (h3 : unpack3 (pySplitDash s) = .ok (ys, ms, ds))
    (h4 : unpack3 (pySplitDash t) = .ok (yt, mt, dts))
    (h5 : mkDatetime ys ms ds = .ok sd)
    (h6 : mkDatetime yt mt dts = .ok ed) :
    (dtLt ed sd = true → explore_asteroids s t w
        = (.ret (.failure "Invalid dates, end date must be after start date."), []))
    ∧ (dtLt ed sd = false → (explore_asteroids s t w).2.head? = some .fetchApi) := by
  constructor
  · intro hlt
    simp [explore_asteroids, asteroidsPrelude, h1, h2, h3, h4, h5, h6, hlt]
  · intro hge
    have hpre : asteroidsPrelude s t = .ok (sd, ed) := by
      simp [asteroidsPrelude, h1, h2, h3, h4, h5, h6, hge]
    simp only [explore_asteroids, hpre]
    cases hx : extractKey w.json "near_earth_objects" with
    | error e => simp [hx]
    | ok o =>
      cases o with
      | none => simp [hx]
      | some log =>
        rcases hp : projectAsteroids log with ⟨rows, ex⟩
        cases ex <;> simp [hx, hp]

/-- C8 witness: equal start and end dates pass the range check and the
operation proceeds to the fetch. -/
theorem c8_witness :
    (explore_asteroids "2022-12-21" "2022-12-21" ⟨.null, 200⟩).2.head? = some .fetchApi :=
  (c8_range_check_rejects_iff_end_before_start "2022-12-21" "2022-12-21" ⟨.null, 200⟩
    "2022" "12" "21" "2022" "12" "21" ⟨2022, 12, 21⟩ ⟨2022, 12, 21⟩
    (by rfl) (by rfl) (by rfl) (by rfl) (by rfl) (by rfl)).2 (by rfl)

/-- C9: for a near-earth-objects mapping whose date entries are lists of
well-shaped objects, the projection emits exactly one record per object per
date key — the date, the name, and the four diameters from
`estimated_diameter.meters` and `.feet` each rounded to two decimals — in
date-key order then list order; and the asteroid operation writes exactly
those rows to the CSV file. -/
theorem c9_projection_one_row_per_object (kvs : List (String × Json))
    (h : ∀ p ∈ kvs, ∃ xs : List Json, p.2 = Json.arr xs ∧
      ∀ j ∈ xs, (neoShape? j).isSome = true) :
    projectAsteroids (Json.obj kvs) = (specProject kvs, none)
    ∧ explore_asteroids "2022-12-20" "2022-12-26"
        ⟨.obj [("near_earth_objects", .obj kvs)], 200⟩
      = (.ret (.success 200),
         [.fetchApi, .writeCsv "near_earth_object_data.csv" (specProject kvs)]) := by
  have hproj : projectAsteroids (Json.obj kvs) = (specProject kvs, none) :=
    projectPairs_of_shapes kvs h
  refine ⟨hproj, ?_⟩
  have hpre : asteroidsPrelude "2022-12-20" "2022-12-26"
      = .ok (⟨2022, 12, 20⟩, ⟨2022, 12, 26⟩) := rfl
  simp [explore_asteroids, hpre, extractKey, Json.getItem, List.lookup, hproj]

/-- C9 witness: the spec fixture — one date key with one object named Test
and meter diameters 1.234 and 5.678 — yields exactly one CSV row with the
diameters rounded to 1.23 and 5.68. -/
theorem c9_witness :
    explore_asteroids "2022-12-20" "2022-12-26"
        ⟨.obj [("near_earth_objects", .obj [("2022-12-20", .arr [testNeo])])], 200⟩
      = (.ret (.success 200),
         [.fetchApi, .writeCsv "near_earth_object_data.csv"
           [⟨"2022-12-20", .str "Test", mkRat 123 100, mkRat 568 100,
             mkRat 339 100, mkRat 1863 100⟩]]) := by
  have h := (c9_projection_one_row_per_object [("2022-12-20", Json.arr [testNeo])]
    (by
      intro p hp
      simp only [List.mem_singleton] at hp
      subst hp
      exact ⟨[testNeo], rfl, by
        intro j hj
        simp only [List.mem_singleton] at hj
        subst hj
        rfl⟩)).2
  rw [h]
  rfl

/-- C10: the rover operation opens the URL text file for writing and writes
the URL lines before the empty-sequence check runs: with an empty photos
list the named file is still created, truncated to empty content, and only
then does the operation hit the process-exit branch. -/
theorem c10_url_file_written_before_empty_check (fname : String) (sc : Int)
    (hf : (fname == "" || fname == " " || !pyEndsWith fname "txt") = false) :
    explore_mars_rover_photos fname "2022-12-21" ⟨.obj [("photos", .arr [])], sc⟩
        ⟨2026, 10, 12⟩
      = (.exit, [.fetchApi, .writeText fname []]) := by
  have hpre : roverPrelude fname "2022-12-21" ⟨2026, 10, 12⟩ = .ok () := by
    have hsearch : (!reSearchDATE "2022-12-21") = false := rfl
    simp only [roverPrelude, hsearch, Bool.false_eq_true, if_false, hf]
    rfl
  simp [explore_mars_rover_photos, hpre, extractKey, Json.getItem, List.lookup,
    pyIter, roverLoop]

/-- C10 witness: the concrete file name images.txt is created empty and the
operation exits. -/
theorem c10_witness :
    explore_mars_rover_photos "images.txt" "2022-12-21"
        ⟨.obj [("photos", .arr [])], 404⟩ ⟨2026, 10, 12⟩
      = (.exit, [.fetchApi, .writeText "images.txt" []]) :=
  c10_url_file_written_before_empty_check "images.txt" 404 (by rfl)

end Explorer
